import Mathlib

/-!
Verification of the audio-playback core of the play-sound MCP server
(`src/mcp_server_play_sound/audio_player.py`), as a shallow embedding.

Paths are modelled as strings, volumes as rationals, timeouts as integers.
Each backend attempt is recorded in a trace so that claims about which
backends were invoked, on which asset and in which order, are provable.
-/

/-- Mirrors the `PlaybackStatus` enum. -/
inductive PlaybackStatus where
  | success
  | failed
  | fallbackUsed
  | timeout
  | fileNotFound
  | unsupportedFormat
deriving DecidableEq, Repr

/-- Mirrors the `PlaybackResult` dataclass: status, message, optional
duration, optional backend name, fallback flag. -/
structure PlaybackResult where
  status : PlaybackStatus
  message : String
  durationMs : Option Int := none
  backendUsed : Option String := none
  fallbackUsed : Bool := false
deriving DecidableEq, Repr

/-- Python truthiness of an `Optional[str]`: `None` and `""` are falsy. -/
def strOptTruthy : Option String → Bool
  | none => false
  | some s => s ≠ ""

/-- The configuration fields `AudioPlayer` reads from its `config` object:
`custom_sound_path`, `enable_fallback`, `volume_level`,
`playback_timeout_seconds`. -/
structure Config where
  customSoundPath : Option String
  enableFallback : Bool
  volumeLevel : Rat
  playbackTimeoutSeconds : Int
deriving DecidableEq, Repr

/-- An abstract backend as the orchestrator sees it: a name and a `play`
function taking (file path, volume, timeout) to a `PlaybackResult`. -/
structure Backend where
  name : String
  play : String → Rat → Int → PlaybackResult

/-- One recorded backend attempt: (backend name, asset path). -/
abbrev Invocation := String × String

/-- The `AudioPlayer` state after construction: configuration, the probed
backend registry (in priority order) and the resolved default sound path. -/
structure AudioPlayer where
  config : Config
  backends : List Backend
  defaultSoundPath : String

/-- The synthesized result when the registry is empty
(`_play_with_backends`, first branch). -/
def noBackendsResult : PlaybackResult :=
  { status := .failed, message := "No audio backends available" }

/-- The synthesized result of the dead `last_result or ...` branch of
`_play_with_backends` (unreachable when the registry is nonempty). -/
def allFailedResult : PlaybackResult :=
  { status := .failed, message := "All audio backends failed" }

/-- The `for backend in self.backends` loop of
`AudioPlayer._play_with_backends`: try each backend in order, short-circuit
on the first `SUCCESS`, otherwise remember the result as `last_result`.
Also returns the list of invocations made. -/
def loopBackends (path : String) (vol : Rat) (tmo : Int) :
    List Backend → Option PlaybackResult → PlaybackResult × List Invocation
  | [], lastResult => (lastResult.getD allFailedResult, [])
  | b :: rest, _ =>
      let result := b.play path vol tmo
      if result.status = .success then
        (result, [(b.name, path)])
      else
        let r := loopBackends path vol tmo rest (some result)
        (r.1, (b.name, path) :: r.2)

/-- `AudioPlayer._play_with_backends`: empty-registry guard, then the
backend loop with the configured volume and timeout. -/
def playWithBackends (p : AudioPlayer) (path : String) :
    PlaybackResult × List Invocation :=
  if p.backends.isEmpty then (noBackendsResult, [])
  else loopBackends path p.config.volumeLevel p.config.playbackTimeoutSeconds
    p.backends none

/-- Lines 268-277 of `AudioPlayer.play_notification`: determine which file
to play and whether it counts as custom.  `custom_path and
self.config.custom_sound_path` uses Python truthiness on both optional
strings. Returns (audio_path, use_custom). -/
def resolvePrimaryAsset (customSoundPath : Option String)
    (defaultSoundPath : String) (customPath : Option String) :
    String × Bool :=
  if strOptTruthy customPath ∧ strOptTruthy customSoundPath then
    (customSoundPath.getD "", true)
  else if strOptTruthy customPath then
    (customPath.getD "", true)
  else
    (defaultSoundPath, false)

/-- `AudioPlayer.play_notification`: resolve the asset, try all backends,
and if a custom asset failed with fallback enabled and the asset is not the
default, retry the default asset, relabelling a successful fallback.
Returns the final result together with the full invocation trace. -/
def playNotification (p : AudioPlayer) (customPath : Option String) :
    PlaybackResult × List Invocation :=
  let audioPath :=
    (resolvePrimaryAsset p.config.customSoundPath p.defaultSoundPath customPath).1
  let useCustom :=
    (resolvePrimaryAsset p.config.customSoundPath p.defaultSoundPath customPath).2
  let pr := playWithBackends p audioPath
  if pr.1.status ≠ .success ∧ useCustom = true ∧
      p.config.enableFallback = true ∧ audioPath ≠ p.defaultSoundPath then
    let fb := playWithBackends p p.defaultSoundPath
    if fb.1.status = .success then
      ({ fb.1 with
          fallbackUsed := true
          status := .fallbackUsed
          message := "Custom audio failed, used fallback: " ++ pr.1.message },
        pr.2 ++ fb.2)
    else
      (pr.1, pr.2 ++ fb.2)
  else
    pr

/-- Observable actions of a single backend attempt on the underlying
playback mechanism: spawning it, and forcibly terminating it. -/
inductive BackendEvent where
  | spawn
  | kill
deriving DecidableEq, Repr

/-- Environment oracle for one `afplay` subprocess run: what the awaited
`process.communicate()` would do. -/
inductive AfplayOutcome where
  | completes (returncode : Int) (stderrText : String)
  | timesOut
  | raisesBeforeSpawn (msg : String)
deriving DecidableEq, Repr

/-- Environment of one `AFPlayBackend.play` attempt: whether the file
exists at the moment of the attempt, and the subprocess outcome. -/
structure AfplayEnv where
  fileExists : Bool
  outcome : AfplayOutcome
deriving DecidableEq, Repr

/-- `AFPlayBackend.play`: existence check first, then run `afplay`; on
timeout the process is killed; a nonzero exit maps to `FAILED` with the
stderr text (or a default when stderr is empty); exceptions raised before
the subprocess starts are caught into a `FAILED` result. Returns the
result and the mechanism events. -/
def afplayPlay (env : AfplayEnv) (filePath : String) (_volume : Rat)
    (tmo : Int) : PlaybackResult × List BackendEvent :=
  if env.fileExists = false then
    ({ status := .fileNotFound
       message := "Audio file not found: " ++ filePath
       backendUsed := some "afplay" }, [])
  else
    match env.outcome with
    | .raisesBeforeSpawn msg =>
        ({ status := .failed
           message := "afplay error: " ++ msg
           backendUsed := some "afplay" }, [])
    | .timesOut =>
        ({ status := .timeout
           message := "Audio playback timed out after " ++ toString tmo ++
             " seconds"
           backendUsed := some "afplay" }, [.spawn, .kill])
    | .completes rc stderrText =>
        if rc = 0 then
          ({ status := .success
             message := "Audio played successfully"
             backendUsed := some "afplay" }, [.spawn])
        else
          ({ status := .failed
             message := "afplay failed: " ++
               (if stderrText = "" then "Unknown afplay error" else stderrText)
             backendUsed := some "afplay" }, [.spawn])

/-- Environment oracle for one `simpleaudio` thread-pool run: what the
awaited `_play_sync` call would do. -/
inductive SimpleaudioOutcome where
  | playsOk
  | playbackError (msg : String)
  | timesOut
deriving DecidableEq, Repr

/-- Environment of one `SimpleAudioBackend.play` attempt: whether the
`simpleaudio` module is importable, whether the file exists, and the
worker-thread outcome. -/
structure SimpleaudioEnv where
  libAvailable : Bool
  fileExists : Bool
  outcome : SimpleaudioOutcome
deriving DecidableEq, Repr

/-- `SimpleAudioBackend.play`: the module-availability check comes first
(returning a `FAILED` result when `simpleaudio` cannot be imported), then
the existence check, then `_play_sync` in a worker thread under
`asyncio.wait_for`.  On timeout the code returns a `TIMEOUT` result but
contains no call that terminates or interrupts the worker: no kill event
is ever produced. -/
def simpleaudioPlay (env : SimpleaudioEnv) (filePath : String)
    (_volume : Rat) (tmo : Int) : PlaybackResult × List BackendEvent :=
  if env.libAvailable = false then
    ({ status := .failed
       message := "simpleaudio not available"
       backendUsed := some "simpleaudio" }, [])
  else if env.fileExists = false then
    ({ status := .fileNotFound
       message := "Audio file not found: " ++ filePath
       backendUsed := some "simpleaudio" }, [])
  else
    match env.outcome with
    | .playsOk =>
        ({ status := .success
           message := "Audio played successfully"
           backendUsed := some "simpleaudio" }, [.spawn])
    | .playbackError msg =>
        ({ status := .failed
           message := "simpleaudio playback error: " ++ msg
           backendUsed := some "simpleaudio" }, [.spawn])
    | .timesOut =>
        ({ status := .timeout
           message := "Audio playback timed out after " ++ toString tmo ++
             " seconds"
           backendUsed := some "simpleaudio" }, [.spawn])

/-- A backend whose `play` may raise an exception (`Except.error`): used to
reason about exception propagation through the orchestrator, which itself
contains no raise statement and no handler. -/
structure BackendE where
  name : String
  play : String → Rat → Int → Except String PlaybackResult

/-- `AudioPlayer` over exception-aware backends. -/
structure AudioPlayerE where
  config : Config
  backends : List BackendE
  defaultSoundPath : String

/-- The backend loop of `_play_with_backends` with exception propagation:
an exception raised by a backend would propagate to the caller, since the
loop has no handler. -/
def loopBackendsE (path : String) (vol : Rat) (tmo : Int) :
    List BackendE → Option PlaybackResult → Except String PlaybackResult
  | [], lastResult => .ok (lastResult.getD allFailedResult)
  | b :: rest, _ =>
      match b.play path vol tmo with
      | .error e => .error e
      | .ok result =>
          if result.status = .success then .ok result
          else loopBackendsE path vol tmo rest (some result)

/-- `_play_with_backends` with exception propagation. -/
def playWithBackendsE (p : AudioPlayerE) (path : String) :
    Except String PlaybackResult :=
  if p.backends.isEmpty then .ok noBackendsResult
  else loopBackendsE path p.config.volumeLevel p.config.playbackTimeoutSeconds
    p.backends none

/-- `play_notification` with exception propagation: the orchestrator
performs no validation of volume or timeout and raises nothing itself; the
only way an exception can reach the caller is a backend raising one. -/
def playNotificationE (p : AudioPlayerE) (customPath : Option String) :
    Except String PlaybackResult :=
  let audioPath :=
    (resolvePrimaryAsset p.config.customSoundPath p.defaultSoundPath customPath).1
  let useCustom :=
    (resolvePrimaryAsset p.config.customSoundPath p.defaultSoundPath customPath).2
  match playWithBackendsE p audioPath with
  | .error e => .error e
  | .ok result =>
      if result.status ≠ .success ∧ useCustom = true ∧
          p.config.enableFallback = true ∧ audioPath ≠ p.defaultSoundPath then
        match playWithBackendsE p p.defaultSoundPath with
        | .error e => .error e
        | .ok fb =>
            if fb.status = .success then
              .ok { fb with
                    fallbackUsed := true
                    status := .fallbackUsed
                    message := "Custom audio failed, used fallback: " ++
                      result.message }
            else .ok result
      else .ok result

/-- Abbreviation: the resolved primary asset of a `play_notification` call
(`audio_path` in the source). -/
abbrev primaryAsset (p : AudioPlayer) (customPath : Option String) : String :=
  (resolvePrimaryAsset p.config.customSoundPath p.defaultSoundPath customPath).1

/-- Abbreviation: the `use_custom` flag of a `play_notification` call. -/
abbrev useCustomFlag (p : AudioPlayer) (customPath : Option String) : Bool :=
  (resolvePrimaryAsset p.config.customSoundPath p.defaultSoundPath customPath).2

/-- Abbreviation: the primary attempt (result and trace) of a
`play_notification` call. -/
abbrev primaryOutcome (p : AudioPlayer) (customPath : Option String) :
    PlaybackResult × List Invocation :=
  playWithBackends p (primaryAsset p customPath)

/-- The fallback condition of `play_notification` (lines 285-288): primary
not successful, custom asset, fallback enabled, and the primary asset is
not the default. -/
abbrev fallbackTriggered (p : AudioPlayer) (customPath : Option String) : Prop :=
  (primaryOutcome p customPath).1.status ≠ .success ∧
  useCustomFlag p customPath = true ∧
  p.config.enableFallback = true ∧
  primaryAsset p customPath ≠ p.defaultSoundPath

/-- `play_notification` unfolded into the primary attempt, the fallback
condition, and the fallback relabelling. -/
theorem playNotification_eq (p : AudioPlayer) (c : Option String) :
    playNotification p c =
      if fallbackTriggered p c then
        if (playWithBackends p p.defaultSoundPath).1.status = .success then
          ({ (playWithBackends p p.defaultSoundPath).1 with
              fallbackUsed := true
              status := .fallbackUsed
              message := "Custom audio failed, used fallback: " ++
                (primaryOutcome p c).1.message },
            (primaryOutcome p c).2 ++ (playWithBackends p p.defaultSoundPath).2)
        else
          ((primaryOutcome p c).1,
            (primaryOutcome p c).2 ++ (playWithBackends p p.defaultSoundPath).2)
      else primaryOutcome p c := rfl

/-- Every invocation recorded by the backend loop is on the requested
path. -/
theorem loopBackends_mem_path (path : String) (vol : Rat) (tmo : Int) :
    ∀ (bs : List Backend) (lastResult : Option PlaybackResult),
      ∀ e ∈ (loopBackends path vol tmo bs lastResult).2, e.2 = path := by
  intro bs
  induction bs with
  | nil => intro lastResult e he; simp [loopBackends] at he
  | cons b rest ih =>
      intro lastResult e he
      simp only [loopBackends] at he
      by_cases h : (b.play path vol tmo).status = .success
      · rw [if_pos h] at he
        simp at he
        simp [he]
      · rw [if_neg h] at he
        simp at he
        rcases he with he | he
        · simp [he]
        · exact ih (some (b.play path vol tmo)) e he

/-- Every invocation of `_play_with_backends` is on the requested path. -/
theorem playWithBackends_mem_path (p : AudioPlayer) (path : String) :
    ∀ e ∈ (playWithBackends p path).2, e.2 = path := by
  intro e he
  unfold playWithBackends at he
  by_cases h : p.backends.isEmpty
  · rw [if_pos h] at he; simp at he
  · rw [if_neg h] at he
    exact loopBackends_mem_path path p.config.volumeLevel
      p.config.playbackTimeoutSeconds p.backends none e he

/-- The trace of a nonempty backend loop starts with the first backend's
invocation. -/
theorem loopBackends_cons_trace (path : String) (vol : Rat) (tmo : Int)
    (b : Backend) (rest : List Backend) (lastResult : Option PlaybackResult) :
    ∃ t, (loopBackends path vol tmo (b :: rest) lastResult).2 =
      (b.name, path) :: t := by
  simp only [loopBackends]
  by_cases h : (b.play path vol tmo).status = .success
  · rw [if_pos h]; exact ⟨[], rfl⟩
  · rw [if_neg h]
    exact ⟨(loopBackends path vol tmo rest (some (b.play path vol tmo))).2, rfl⟩

/-- If every backend of `pre` fails and `b` succeeds, the backend loop on
`pre ++ b :: post` invokes exactly `pre` then `b`, in order, and returns
`b`'s successful result; no backend of `post` is invoked. -/
theorem loopBackends_first_success (path : String) (vol : Rat) (tmo : Int)
    (b : Backend) (post : List Backend)
    (hb : (b.play path vol tmo).status = .success) :
    ∀ (pre : List Backend) (lastResult : Option PlaybackResult),
      (∀ a ∈ pre, (a.play path vol tmo).status ≠ .success) →
      loopBackends path vol tmo (pre ++ b :: post) lastResult =
        (b.play path vol tmo, (pre ++ [b]).map fun a => (a.name, path)) := by
  intro pre
  induction pre with
  | nil =>
      intro lastResult _
      simp only [List.nil_append, loopBackends, List.map_cons, List.map_nil]
      rw [if_pos hb]
  | cons a pre ih =>
      intro lastResult h
      have ha : (a.play path vol tmo).status ≠ .success := h a (by simp)
      simp only [List.cons_append, loopBackends]
      rw [if_neg ha]
      simp only [List.append_eq]
      rw [ih (some (a.play path vol tmo))
        (fun x hx => h x (List.mem_cons_of_mem a hx))]
      simp

/-- C5: for every registry and asset, the per-asset backend loop tries
backends strictly in registry order and short-circuits on the first
successful result: if every backend before `b` fails and `b` succeeds,
`_play_with_backends` returns `b`'s result and invokes exactly the failing
earlier backends followed by `b`; no later backend is invoked. -/
theorem backends_tried_in_order_first_success_short_circuits
    (cfg : Config) (d path : String) (pre : List Backend) (b : Backend)
    (post : List Backend)
    (hpre : ∀ a ∈ pre,
      (a.play path cfg.volumeLevel cfg.playbackTimeoutSeconds).status ≠ .success)
    (hb : (b.play path cfg.volumeLevel cfg.playbackTimeoutSeconds).status = .success) :
    playWithBackends ⟨cfg, pre ++ b :: post, d⟩ path =
      (b.play path cfg.volumeLevel cfg.playbackTimeoutSeconds,
        (pre ++ [b]).map fun a => (a.name, path)) := by
  unfold playWithBackends
  rw [if_neg (by simp)]
  exact loopBackends_first_success path cfg.volumeLevel cfg.playbackTimeoutSeconds
    b post hb pre none hpre

/-- A test double that fails on every asset. -/
def failBackend : Backend :=
  ⟨"failer", fun _ _ _ =>
    { status := .failed, message := "always fails", backendUsed := some "failer" }⟩

/-- A test double that succeeds on every asset. -/
def okBackend : Backend :=
  ⟨"winner", fun _ _ _ =>
    { status := .success, message := "Audio played successfully",
      backendUsed := some "winner" }⟩

/-- A test double that succeeds only on the bundled default asset. -/
def defaultOnlyBackend : Backend :=
  ⟨"defonly", fun path _ _ =>
    if path = "notification.wav" then
      { status := .success, message := "Audio played successfully",
        backendUsed := some "defonly" }
    else
      { status := .failed, message := "cannot play " ++ path,
        backendUsed := some "defonly" }⟩

/-- A player with a configured custom sound path and a recording backend. -/
def overridePlayer : AudioPlayer :=
  ⟨⟨some "configured.wav", false, 1, 30⟩, [failBackend], "notification.wav"⟩

/-- C1, counterexample: with a configured `custom_sound_path` of
`configured.wav`, a call overriding with `caller.wav` plays
`configured.wav` in its primary (and only) attempt — not the caller's
override, contradicting the claim that the primary asset is exactly the
override. -/
theorem primary_asset_override_counterexample :
    (playNotification overridePlayer (some "caller.wav")).2 =
      [("failer", "configured.wav")] ∧
    ("configured.wav" : String) ≠ "caller.wav" := by decide

/-- C1, amended: the first backend invocation of `play_notification` is on
the configured custom sound path when both the override and the configured
path are non-empty, on the override when only the override is non-empty,
and on the default asset otherwise. -/
theorem primary_asset_resolution (cfg : Config) (d : String) (b : Backend)
    (bs : List Backend) (c : Option String) :
    ((playNotification ⟨cfg, b :: bs, d⟩ c).2).head? =
      some (b.name,
        if strOptTruthy c ∧ strOptTruthy cfg.customSoundPath then
          cfg.customSoundPath.getD ""
        else if strOptTruthy c then c.getD ""
        else d) := by
  have hres : primaryAsset ⟨cfg, b :: bs, d⟩ c =
      (if strOptTruthy c ∧ strOptTruthy cfg.customSoundPath then
        cfg.customSoundPath.getD ""
      else if strOptTruthy c then c.getD ""
      else d) := by
    show (resolvePrimaryAsset cfg.customSoundPath d c).1 = _
    unfold resolvePrimaryAsset
    by_cases h1 : strOptTruthy c ∧ strOptTruthy cfg.customSoundPath
    · rw [if_pos h1, if_pos h1]
    · rw [if_neg h1, if_neg h1]
      by_cases h2 : strOptTruthy c
      · rw [if_pos h2, if_pos h2]
      · rw [if_neg h2, if_neg h2]
  rw [← hres]
  obtain ⟨t, ht⟩ := loopBackends_cons_trace (primaryAsset ⟨cfg, b :: bs, d⟩ c)
    cfg.volumeLevel cfg.playbackTimeoutSeconds b bs none
  have hpw : (primaryOutcome ⟨cfg, b :: bs, d⟩ c).2 =
      (b.name, primaryAsset ⟨cfg, b :: bs, d⟩ c) :: t := by
    show (playWithBackends ⟨cfg, b :: bs, d⟩ _).2 = _
    unfold playWithBackends
    rw [if_neg (by simp)]
    exact ht
  rw [playNotification_eq]
  by_cases h : fallbackTriggered ⟨cfg, b :: bs, d⟩ c
  · rw [if_pos h]
    by_cases hs :
        (playWithBackends ⟨cfg, b :: bs, d⟩
          (AudioPlayer.mk cfg (b :: bs) d).defaultSoundPath).1.status = .success
    · rw [if_pos hs]
      simp [hpw]
    · rw [if_neg hs]
      simp [hpw]
  · rw [if_neg h]
    simp [hpw]

/-- C2: the fallback attempt on the default asset happens iff the primary
result is not a success, the asset is custom, fallback is enabled, and the
primary asset differs from the default (the invocation trace extends the
primary trace by the default-asset pass exactly under `fallbackTriggered`);
moreover with fallback disabled the original result is returned and no
backend is invoked on the default asset when the custom asset differs from
it. -/
theorem fallback_attempt_iff (p : AudioPlayer) (c : Option String) :
    ((playNotification p c).2 = (primaryOutcome p c).2 ++
      (if fallbackTriggered p c then (playWithBackends p p.defaultSoundPath).2
       else []))
    ∧ (p.config.enableFallback = false →
        playNotification p c = primaryOutcome p c ∧
        (primaryAsset p c ≠ p.defaultSoundPath →
          ∀ e ∈ (playNotification p c).2, e.2 ≠ p.defaultSoundPath)) := by
  constructor
  · rw [playNotification_eq]
    by_cases h : fallbackTriggered p c
    · rw [if_pos h, if_pos h]
      by_cases hs : (playWithBackends p p.defaultSoundPath).1.status = .success
      · rw [if_pos hs]
      · rw [if_neg hs]
    · rw [if_neg h, if_neg h, List.append_nil]
  · intro hdis
    have hnt : ¬ fallbackTriggered p c := by
      rintro ⟨_, _, hen, _⟩
      rw [hdis] at hen
      exact Bool.false_ne_true hen
    have heq : playNotification p c = primaryOutcome p c := by
      rw [playNotification_eq, if_neg hnt]
    refine ⟨heq, fun hne e he => ?_⟩
    rw [heq] at he
    have hep := playWithBackends_mem_path p (primaryAsset p c) e he
    rw [hep]
    exact hne

/-- A player with a failing backend and fallback disabled. -/
def disabledFallbackPlayer : AudioPlayer :=
  ⟨⟨none, false, 1, 30⟩, [failBackend], "notification.wav"⟩

/-- C2, witness: with fallback disabled and a failing custom asset, the
call returns the primary attempt's outcome unchanged. -/
theorem fallback_attempt_iff_witness :
    playNotification disabledFallbackPlayer (some "c.wav") =
      primaryOutcome disabledFallbackPlayer (some "c.wav") :=
  ((fallback_attempt_iff disabledFallbackPlayer (some "c.wav")).2 rfl).1

/-- C3: when the primary attempt fails and the triggered fallback attempt
on the default asset succeeds, the returned result has status
`FALLBACK_USED`, its fallback flag set, and a message containing the
original failure's message; it is the fallback result relabelled. -/
theorem fallback_success_relabelled (p : AudioPlayer) (c : Option String)
    (hfail : (primaryOutcome p c).1.status ≠ .success)
    (hcustom : useCustomFlag p c = true)
    (hen : p.config.enableFallback = true)
    (hne : primaryAsset p c ≠ p.defaultSoundPath)
    (hsucc : (playWithBackends p p.defaultSoundPath).1.status = .success) :
    (playNotification p c).1.status = .fallbackUsed ∧
    (playNotification p c).1.fallbackUsed = true ∧
    (∃ pre, (playNotification p c).1.message =
      pre ++ (primaryOutcome p c).1.message) ∧
    (playNotification p c).1 =
      { (playWithBackends p p.defaultSoundPath).1 with
        status := .fallbackUsed
        fallbackUsed := true
        message := "Custom audio failed, used fallback: " ++
          (primaryOutcome p c).1.message } := by
  have ht : fallbackTriggered p c := ⟨hfail, hcustom, hen, hne⟩
  rw [playNotification_eq, if_pos ht, if_pos hsucc]
  exact ⟨rfl, rfl, ⟨"Custom audio failed, used fallback: ", rfl⟩, rfl⟩

/-- A player whose single backend can only play the default asset, with
fallback enabled. -/
def fallbackPlayer : AudioPlayer :=
  ⟨⟨none, true, 1, 30⟩, [defaultOnlyBackend], "notification.wav"⟩

/-- C3, witness: a custom asset that fails everywhere with a default that
succeeds yields a `FALLBACK_USED` result with the fallback flag set. -/
theorem fallback_success_relabelled_witness :
    (playNotification fallbackPlayer (some "c.wav")).1.status = .fallbackUsed ∧
    (playNotification fallbackPlayer (some "c.wav")).1.fallbackUsed = true := by
  have h := fallback_success_relabelled fallbackPlayer (some "c.wav")
    (by decide) (by decide) rfl (by decide) (by decide)
  exact ⟨h.1, h.2.1⟩

/-- C4: when the primary attempt fails and the triggered fallback attempt
also fails, the caller receives the original primary failure result
unchanged — same status, message, backend name and fallback flag. -/
theorem fallback_failure_returns_original (p : AudioPlayer) (c : Option String)
    (hfail : (primaryOutcome p c).1.status ≠ .success)
    (hcustom : useCustomFlag p c = true)
    (hen : p.config.enableFallback = true)
    (hne : primaryAsset p c ≠ p.defaultSoundPath)
    (hfb : (playWithBackends p p.defaultSoundPath).1.status ≠ .success) :
    (playNotification p c).1 = (primaryOutcome p c).1 ∧
    (playNotification p c).1.status = (primaryOutcome p c).1.status ∧
    (playNotification p c).1.message = (primaryOutcome p c).1.message ∧
    (playNotification p c).1.backendUsed = (primaryOutcome p c).1.backendUsed ∧
    (playNotification p c).1.fallbackUsed = (primaryOutcome p c).1.fallbackUsed := by
  have ht : fallbackTriggered p c := ⟨hfail, hcustom, hen, hne⟩
  rw [playNotification_eq, if_pos ht, if_neg hfb]
  exact ⟨rfl, rfl, rfl, rfl, rfl⟩

/-- A player whose single backend fails on everything, with fallback
enabled. -/
def allFailPlayer : AudioPlayer :=
  ⟨⟨none, true, 1, 30⟩, [failBackend], "notification.wav"⟩

/-- C4, witness: when both the custom asset and the default fallback fail,
the original primary failure is returned. -/
theorem fallback_failure_returns_original_witness :
    (playNotification allFailPlayer (some "c.wav")).1 =
      (primaryOutcome allFailPlayer (some "c.wav")).1 :=
  (fallback_failure_returns_original allFailPlayer (some "c.wav")
    (by decide) (by decide) rfl (by decide) (by decide)).1

/-- C5, witness: with a failing first backend, a succeeding second backend
and a third backend after it, the loop returns the second backend's
success and invokes exactly the first two, in order. -/
theorem backends_tried_in_order_witness :
    playWithBackends
        ⟨⟨none, true, 1, 30⟩, [failBackend, okBackend, failBackend], "d.wav"⟩
        "x.wav" =
      (okBackend.play "x.wav" 1 30, [("failer", "x.wav"), ("winner", "x.wav")]) := by
  have h := backends_tried_in_order_first_success_short_circuits
    ⟨none, true, 1, 30⟩ "d.wav" "x.wav" [failBackend] okBackend [failBackend]
    (by intro a ha; rw [List.mem_singleton] at ha; subst ha; decide)
    (by decide)
  simpa using h

/-- With an empty registry, `_play_with_backends` synthesizes the failure
result without invoking anything. -/
theorem playWithBackends_empty (cfg : Config) (d path : String) :
    playWithBackends ⟨cfg, [], d⟩ path = (noBackendsResult, []) := rfl

/-- The exception-aware variant of the empty-registry branch. -/
theorem playWithBackendsE_empty (cfg : Config) (d path : String) :
    playWithBackendsE ⟨cfg, [], d⟩ path = Except.ok noBackendsResult := rfl

/-- A player with an empty backend registry. -/
def emptyRegistryPlayer : AudioPlayer :=
  ⟨⟨none, true, 1, 30⟩, [], "notification.wav"⟩

/-- C6, counterexample: the empty-registry failure message is
`No audio backends available`, not the claimed `no backends available`. -/
theorem empty_registry_message_counterexample :
    (playNotification emptyRegistryPlayer none).1.status = .failed ∧
    (playNotification emptyRegistryPlayer none).1.message =
      "No audio backends available" ∧
    ¬ (playNotification emptyRegistryPlayer none).1.message =
      "no backends available" := by decide

/-- C6, amended: with an empty registry, every `play_notification` call
returns the synthesized `FAILED` result with message `No audio backends
available`, invokes no backend (the trace is empty) and raises no
exception (the exception-aware model returns normally). -/
theorem empty_registry_fails (cfg : Config) (d : String) (c : Option String) :
    playNotification ⟨cfg, [], d⟩ c = (noBackendsResult, []) ∧
    playNotificationE ⟨cfg, [], d⟩ c = Except.ok noBackendsResult ∧
    noBackendsResult.status = .failed ∧
    noBackendsResult.message = "No audio backends available" := by
  refine ⟨?_, ?_, rfl, rfl⟩
  · rw [playNotification_eq]
    by_cases h : fallbackTriggered ⟨cfg, [], d⟩ c
    · rw [if_pos h]
      have hfb : ¬ (playWithBackends ⟨cfg, [], d⟩
          (AudioPlayer.mk cfg [] d).defaultSoundPath).1.status =
            PlaybackStatus.success := fun hcon => PlaybackStatus.noConfusion hcon
      rw [if_neg hfb]
      rfl
    · rw [if_neg h]
      rfl
  · show playNotificationE ⟨cfg, [], d⟩ c = Except.ok noBackendsResult
    unfold playNotificationE
    dsimp only
    rw [playWithBackendsE_empty]
    dsimp only
    by_cases h : (noBackendsResult.status ≠ PlaybackStatus.success ∧
        (resolvePrimaryAsset cfg.customSoundPath d c).2 = true ∧
        cfg.enableFallback = true ∧
        (resolvePrimaryAsset cfg.customSoundPath d c).1 ≠ d)
    · rw [if_pos h, playWithBackendsE_empty]
      dsimp only
      rw [if_neg (show ¬ noBackendsResult.status = PlaybackStatus.success from
        fun hcon => PlaybackStatus.noConfusion hcon)]
    · rw [if_neg h]

/-- C7, counterexample: a `SimpleAudioBackend` whose library is not
importable returns `FAILED` (`simpleaudio not available`) on a nonexistent
path — not `FILE_NOT_FOUND` — because the availability check precedes the
existence check; no mechanism is spawned either way. -/
theorem play_missing_file_counterexample :
    (simpleaudioPlay ⟨false, false, .playsOk⟩ "missing.wav" 1 30).1.status ≠
      .fileNotFound ∧
    (simpleaudioPlay ⟨false, false, .playsOk⟩ "missing.wav" 1 30).1.status =
      .failed ∧
    (simpleaudioPlay ⟨false, false, .playsOk⟩ "missing.wav" 1 30).1.message =
      "simpleaudio not available" ∧
    (simpleaudioPlay ⟨false, false, .playsOk⟩ "missing.wav" 1 30).2 = [] := by
  decide

/-- C7, amended: `play` on a nonexistent path returns `FILE_NOT_FOUND`
without spawning the mechanism (empty event list) for `AFPlayBackend`
always, and for `SimpleAudioBackend` whenever its library is importable
(as holds for every registered backend); when the library is missing,
`SimpleAudioBackend.play` instead returns `FAILED` — still without
spawning anything. -/
theorem play_missing_file_no_spawn :
    (∀ (env : AfplayEnv) (path : String) (v : Rat) (t : Int),
      env.fileExists = false →
      afplayPlay env path v t =
        ({ status := .fileNotFound
           message := "Audio file not found: " ++ path
           backendUsed := some "afplay" }, []))
    ∧ (∀ (env : SimpleaudioEnv) (path : String) (v : Rat) (t : Int),
      env.libAvailable = true → env.fileExists = false →
      simpleaudioPlay env path v t =
        ({ status := .fileNotFound
           message := "Audio file not found: " ++ path
           backendUsed := some "simpleaudio" }, []))
    ∧ (∀ (env : SimpleaudioEnv) (path : String) (v : Rat) (t : Int),
      env.libAvailable = false →
      simpleaudioPlay env path v t =
        ({ status := .failed
           message := "simpleaudio not available"
           backendUsed := some "simpleaudio" }, [])) := by
  refine ⟨?_, ?_, ?_⟩
  · intro env path v t hex
    unfold afplayPlay
    rw [if_pos hex]
  · intro env path v t hlib hex
    unfold simpleaudioPlay
    rw [if_neg (by rw [hlib]; exact fun hcon => Bool.noConfusion hcon)]
    rw [if_pos hex]
  · intro env path v t hlib
    unfold simpleaudioPlay
    rw [if_pos hlib]

/-- C7, witness: `AFPlayBackend.play` on a missing file is
`FILE_NOT_FOUND` with no mechanism event. -/
theorem play_missing_file_no_spawn_witness :
    afplayPlay ⟨false, .timesOut⟩ "missing.wav" 1 30 =
      ({ status := .fileNotFound
         message := "Audio file not found: " ++ "missing.wav"
         backendUsed := some "afplay" }, []) :=
  play_missing_file_no_spawn.1 ⟨false, .timesOut⟩ "missing.wav" 1 30 rfl

/-- The environment of a `SimpleAudioBackend.play` attempt on an existing
file whose playback exceeds the timeout. -/
def simpleaudioTimeoutEnv : SimpleaudioEnv := ⟨true, true, .timesOut⟩

/-- C8: on timeout both backends report the distinct `TIMEOUT` status, and
`AFPlayBackend` kills its subprocess — but `SimpleAudioBackend` performs no
termination of the worker thread at all (no kill event exists in its
timeout path), leaving the playback running, contrary to the claim. -/
theorem timeout_reported_but_simpleaudio_not_terminated :
    (simpleaudioPlay simpleaudioTimeoutEnv "sound.wav" 1 30).1.status =
      .timeout ∧
    (simpleaudioPlay simpleaudioTimeoutEnv "sound.wav" 1 30).1.status ≠
      .failed ∧
    BackendEvent.kill ∉ (simpleaudioPlay simpleaudioTimeoutEnv "sound.wav" 1 30).2 ∧
    (afplayPlay ⟨true, .timesOut⟩ "sound.wav" 1 30).1.status = .timeout ∧
    BackendEvent.kill ∈ (afplayPlay ⟨true, .timesOut⟩ "sound.wav" 1 30).2 := by
  decide

/-- Whether an exception-aware computation returned normally. -/
def returnsNormally : Except String PlaybackResult → Bool
  | .ok _ => true
  | .error _ => false

/-- The exception-aware backend loop returns normally whenever every
backend in it does. -/
theorem loopBackendsE_ok (path : String) (v : Rat) (t : Int) :
    ∀ (bs : List BackendE) (lastResult : Option PlaybackResult),
      (∀ b ∈ bs, ∃ r, b.play path v t = .ok r) →
      ∃ r, loopBackendsE path v t bs lastResult = .ok r := by
  intro bs
  induction bs with
  | nil => intro lastResult _; exact ⟨_, rfl⟩
  | cons b rest ih =>
      intro lastResult h
      obtain ⟨r, hr⟩ := h b (List.mem_cons_self b rest)
      have hrw : loopBackendsE path v t (b :: rest) lastResult =
          if r.status = .success then Except.ok r
          else loopBackendsE path v t rest (some r) := by
        simp only [loopBackendsE]
        rw [hr]
      rw [hrw]
      by_cases hs : r.status = .success
      · rw [if_pos hs]; exact ⟨r, rfl⟩
      · rw [if_neg hs]
        exact ih (some r) fun x hx => h x (List.mem_cons_of_mem b hx)

/-- A backend that fails (as a value, never an exception) on everything. -/
def stubFailBackendE : BackendE :=
  ⟨"stub", fun _ _ _ =>
    .ok { status := .failed, message := "boom", backendUsed := some "stub" }⟩

/-- A player whose configuration violates the claimed caller contract:
volume 2 (outside [0, 1]) and timeout -1 (non-positive). -/
def badConfigPlayerE : AudioPlayerE :=
  ⟨⟨none, true, 2, -1⟩, [stubFailBackendE], "notification.wav"⟩

/-- C9, counterexample: with out-of-range volume and non-positive timeout,
`play_notification` does not raise; it completes normally with the
backend's failure result, contradicting the claimed iff. -/
theorem never_raises_counterexample :
    (badConfigPlayerE.config.volumeLevel < 0 ∨
      1 < badConfigPlayerE.config.volumeLevel) ∧
    badConfigPlayerE.config.playbackTimeoutSeconds ≤ 0 ∧
    playNotificationE badConfigPlayerE none =
      Except.ok { status := .failed, message := "boom",
                  backendUsed := some "stub" } := by
  refine ⟨Or.inr (show (1 : Rat) < 2 by norm_num),
    show (-1 : Int) ≤ 0 by norm_num, ?_⟩
  rfl

/-- C9, amended: `play_notification` performs no volume or timeout
validation and never raises for any configuration — whenever every backend
in the registry returns a result value rather than raising (as both
implemented backends do, catching their exceptions internally), the call
returns normally, including with out-of-range volume and non-positive
timeout; backend failures reach the caller only as result values. -/
theorem play_notification_never_raises (p : AudioPlayerE) (c : Option String)
    (hok : ∀ b ∈ p.backends, ∀ (path : String) (v : Rat) (t : Int),
      ∃ r, b.play path v t = .ok r) :
    returnsNormally (playNotificationE p c) = true := by
  have hpw : ∀ path, ∃ r, playWithBackendsE p path = .ok r := by
    intro path
    unfold playWithBackendsE
    by_cases he : p.backends.isEmpty
    · rw [if_pos he]; exact ⟨_, rfl⟩
    · rw [if_neg he]
      exact loopBackendsE_ok path p.config.volumeLevel
        p.config.playbackTimeoutSeconds p.backends none
        fun b hb => hok b hb path p.config.volumeLevel
          p.config.playbackTimeoutSeconds
  obtain ⟨r1, hr1⟩ := hpw
    (resolvePrimaryAsset p.config.customSoundPath p.defaultSoundPath c).1
  obtain ⟨r2, hr2⟩ := hpw p.defaultSoundPath
  unfold playNotificationE
  dsimp only
  rw [hr1]
  dsimp only
  by_cases h : (r1.status ≠ PlaybackStatus.success ∧
      (resolvePrimaryAsset p.config.customSoundPath p.defaultSoundPath c).2 = true ∧
      p.config.enableFallback = true ∧
      (resolvePrimaryAsset p.config.customSoundPath p.defaultSoundPath c).1 ≠
        p.defaultSoundPath)
  · rw [if_pos h, hr2]
    dsimp only
    by_cases hs : r2.status = PlaybackStatus.success
    · rw [if_pos hs]; rfl
    · rw [if_neg hs]; rfl
  · rw [if_neg h]; rfl

/-- C9, witness: applying the non-raising theorem to the player with the
out-of-contract configuration. -/
theorem play_notification_never_raises_witness :
    returnsNormally (playNotificationE badConfigPlayerE none) = true :=
  play_notification_never_raises badConfigPlayerE none (by
    intro b hb path v t
    rw [show badConfigPlayerE.backends = [stubFailBackendE] from rfl,
      List.mem_singleton] at hb
    subst hb
    exact ⟨_, rfl⟩)

/-- C10: with `custom_path = None` the configured custom sound path is
ignored — the asset is the default, the attempt is non-custom, and the
whole call reduces to the primary pass on the default asset (so no
fallback phase can occur); the configured path takes effect only when the
caller passes a non-empty `custom_path`, in which case it replaces the
caller's argument; an empty caller argument also falls back to the
default. -/
theorem config_custom_path_consultation :
    (∀ p : AudioPlayer,
      resolvePrimaryAsset p.config.customSoundPath p.defaultSoundPath none =
        (p.defaultSoundPath, false) ∧
      playNotification p none = playWithBackends p p.defaultSoundPath)
    ∧ (∀ cs d s : String, s ≠ "" → cs ≠ "" →
        resolvePrimaryAsset (some cs) d (some s) = (cs, true))
    ∧ (∀ (csp : Option String) (d : String),
        resolvePrimaryAsset csp d (some "") = (d, false)) := by
  refine ⟨fun p => ⟨rfl, ?_⟩, fun cs d s hs hcs => ?_, fun csp d => ?_⟩
  · rw [playNotification_eq]
    have hnt : ¬ fallbackTriggered p none := by
      rintro ⟨_, hcustom, _, _⟩
      exact Bool.false_ne_true hcustom
    rw [if_neg hnt]
    rfl
  · have h1 : strOptTruthy (some s) = true := by simp [strOptTruthy, hs]
    have h2 : strOptTruthy (some cs) = true := by simp [strOptTruthy, hcs]
    unfold resolvePrimaryAsset
    rw [if_pos ⟨h1, h2⟩]
    rfl
  · rfl

/-- C10, witness: a non-empty caller override together with a configured
custom sound path resolves to the configured path, marked custom. -/
theorem config_custom_path_consultation_witness :
    resolvePrimaryAsset (some "configured.wav") "notification.wav"
      (some "caller.wav") = ("configured.wav", true) :=
  config_custom_path_consultation.2.1 "configured.wav" "notification.wav"
    "caller.wav" (by decide) (by decide)
